import Mathlib

/-!
Verification of the `foo` coroutine adapter (src/foo.js and the Q-based
variant embedded after src/test/testFoo.js).

The adapter converts a generator function into a function returning a
standard promise: each `yield` inside the generator produces either a
plain value or a promise; a plain value resumes the generator with the
value itself, a promise resumes it with the fulfillment value or raises
the rejection reason at the yield point.  We embed JavaScript values, the
settled behaviour of promises (with a turn counter for event-loop delay),
generators as coroutine trees, and the drive loop, then prove the
contract stated by the specification.
-/

/-- A JavaScript value as used by the adapter and its tests: `undefined`,
`null`, numbers, strings, objects (field lists), arrays, and error
objects carrying a message.  Structural equality of this inductive models
deep equality of JavaScript values. -/
inductive Val where
  | undef : Val
  | null : Val
  | num (n : Int) : Val
  | str (s : String) : Val
  | obj (fields : List (String × Val)) : Val
  | arr (elems : List Val) : Val
  | error (msg : String) : Val

/-- The settled outcome of a promise or of a generator run: fulfillment
with a value, or rejection with an error value. -/
inductive Outcome where
  | ok (v : Val) : Outcome
  | err (e : Val) : Outcome

/-- A promise, modelled by its settled behaviour: `delay` counts the
event-loop turns before it settles (0 = already settled), and `outcome`
is the single settlement.  That a `JsPromise` carries exactly one
`outcome` models the promise contract of settling exactly once. -/
structure JsPromise where
  delay : Nat
  outcome : Outcome

/-- Model of `Promise.resolve(v)`: an already-fulfilled promise of `v`. -/
def promiseResolve (v : Val) : JsPromise := ⟨0, Outcome.ok v⟩

/-- Model of `belay(value)` from src/test/testFoo.js lines 27-35: resolve
with the value on the next tick, i.e. fulfillment after one event-loop
turn. -/
def belay (v : Val) : JsPromise := ⟨1, Outcome.ok v⟩

/-- Model of `belayError(error)` from src/test/testFoo.js lines 42-50:
reject with the error on the next tick. -/
def belayError (e : Val) : JsPromise := ⟨1, Outcome.err e⟩

/-- A value produced at a suspension point: either a plain value or a
promise. -/
inductive Yielded where
  | plain (v : Val) : Yielded
  | promise (p : JsPromise) : Yielded

/-- The yield handler installed in src/foo.js lines 62-64:
`function (value) { return Promise.resolve(value); }` — a plain yielded
value is normalized to an already-fulfilled promise of itself. -/
def fooYieldHandler (v : Val) : JsPromise := promiseResolve v

/-- The built-in Q resolution of a non-promise yielded value
(`Q(value)`), used by the Q-based variant through `Q.async`: a plain
value resolves to an already-fulfilled promise of itself. -/
def qResolveValue (v : Val) : JsPromise := promiseResolve v

/-- A generator body, seen from its suspension points: it either returns
a value, throws an error, or yields a value and continues from the
resumption (`Outcome.ok v` when the driver resumes it with a value,
`Outcome.err e` when the driver raises `e` at the yield point — the `err`
branch of the continuation is exactly the code reachable by a local
`try`/`catch` around the yield). -/
inductive Gen where
  | ret (v : Val) : Gen
  | genThrow (e : Val) : Gen
  | yield (y : Yielded) (k : Outcome → Gen) : Gen

/-- A generator function: from its argument list to a generator body. -/
def GenFun : Type := List Val → Gen

/-- Modelled from the spec (§4 steps 1-3, §6 host coroutine runtime;
the drive loop itself lives in the external promise libraries, not under
src/): run a generator, normalizing each yielded value with the handler
`h` when it is plain, awaiting the resulting promise, resuming with the
fulfillment value or raising the rejection reason at the yield point, and
accumulating the event-loop delay `d`.  Returning produces fulfillment,
throwing produces rejection. -/
def runGenWith (h : Val → JsPromise) : Gen → Nat → JsPromise
  | Gen.ret v, d => ⟨d, Outcome.ok v⟩
  | Gen.genThrow e, d => ⟨d, Outcome.err e⟩
  | Gen.yield y k, d =>
      let p := match y with
        | Yielded.plain v => h v
        | Yielded.promise q => q
      match p.outcome with
      | Outcome.ok v => runGenWith h (k (Outcome.ok v)) (d + p.delay)
      | Outcome.err e => runGenWith h (k (Outcome.err e)) (d + p.delay)

/-- The Bluebird-based `foo` (src/foo.js line 74:
`module.exports = Promise.coroutine`, with the yield handler of lines
62-64 installed): wrap a generator function; calling the wrapper drives
the generator and returns the resulting promise. -/
def foo (gf : GenFun) (args : List Val) : JsPromise :=
  runGenWith fooYieldHandler (gf args) 0

/-- Model of `Q.async(generator).apply(this, arguments)` in the Q-based
variant (lines 169-170 of the embedded source): drive the generator with
the value resolution built into Q. -/
def qAsyncRun (gf : GenFun) (args : List Val) : JsPromise :=
  runGenWith qResolveValue (gf args) 0

/-- Model of
`new Promise(function (resolve, reject) { return promise.then(resolve, reject); })`
(lines 171-173 of the embedded Q-based source): a freshly constructed
standard promise that settles, one turn after the underlying promise,
with exactly the underlying outcome. -/
def newPromiseThen (p : JsPromise) : JsPromise := ⟨p.delay + 1, p.outcome⟩

/-- The Q-based `foo` (lines 167-175 of the embedded source): run the
generator through `Q.async` and re-wrap the resulting Q promise in a new
standard promise that forwards both fulfillment and rejection. -/
def qFoo (gf : GenFun) (args : List Val) : JsPromise :=
  newPromiseThen (qAsyncRun gf args)

/-- A generator that yields once and returns the resumption value,
re-raising a raised error (`const r = yield y; return r;` with no local
catch). -/
def genYieldOnce (y : Yielded) : Gen :=
  Gen.yield y (fun o =>
    match o with
    | Outcome.ok v => Gen.ret v
    | Outcome.err e => Gen.genThrow e)

/-- A generator whose single yield sits inside `try { return yield y; }
catch (e) { ...c e... }`: a value resumption returns the value, an error
resumption runs the catch block `c` on the caught error. -/
def genYieldInTryCatch (y : Yielded) (c : Val → Gen) : Gen :=
  Gen.yield y (fun o =>
    match o with
    | Outcome.ok v => Gen.ret v
    | Outcome.err e => c e)

/-- The nested generator function `a` of src/test/testFoo.js lines
102-106: `function* a(value) { yield null; return value; }`. -/
def aGen : GenFun := fun args =>
  Gen.yield (Yielded.plain Val.null) (fun o =>
    match o with
    | Outcome.ok _ => Gen.ret (args.headD Val.undef)
    | Outcome.err e => Gen.genThrow e)

/-- The input space of the exported adapter, extended with misuse: the
caller may pass a proper generator function, or something that is not a
function (or lacks generator capability) at all. -/
inductive WrapInput where
  | genFn (gf : GenFun) : WrapInput
  | notAFunction (v : Val) : WrapInput

/-- Modelled from the spec: the host coroutine layer (the external
coroutine primitive of §6, whose code is not under src/).  Per §7, misuse
(a non-function, or a function lacking suspension capability) "manifests
as a failure at the host coroutine layer" and "everything funnels into
the rejection channel of the returned promise"; a proper generator
function is driven per §4. -/
def hostCoroutineLayer (w : WrapInput) (args : List Val) : JsPromise :=
  match w with
  | WrapInput.genFn gf => runGenWith fooYieldHandler (gf args) 0
  | WrapInput.notAFunction _ =>
      ⟨0, Outcome.err (Val.error "generatorFunction must be a function")⟩

/-- src/foo.js line 74: `module.exports = Promise.coroutine` — the
exported adapter is the host coroutine operation itself, re-exported
unchanged; the adapter adds no validation code of its own. -/
def fooExport : WrapInput → List Val → JsPromise := hostCoroutineLayer

/-- Which implementation currently occupies the global `Promise`
binding. -/
inductive PromiseImpl where
  | builtin : PromiseImpl
  | bluebird : PromiseImpl
deriving DecidableEq

/-- The process-wide global state the module touches: the global
`Promise` binding, the Bluebird long-stack-traces flag, and the list of
registered yield handlers. -/
structure GlobalState where
  promiseImpl : PromiseImpl
  longStackTracesEnabled : Bool
  yieldHandlers : List (Val → JsPromise)

/-- Module-load installation, src/foo.js lines 55-64: override the
global `Promise` binding with Bluebird, enable long stack traces, and
register the plain-value yield handler.  The enclosing IIFE runs this
once, when the module is loaded. -/
def moduleLoad (s : GlobalState) : GlobalState :=
  { s with
    promiseImpl := PromiseImpl.bluebird
    longStackTracesEnabled := true
    yieldHandlers := s.yieldHandlers ++ [fooYieldHandler] }

/-- One invocation of the wrapper with the global state threaded
through: the wrapper body (src/foo.js line 74) drives the generator and
returns its promise; it assigns to no global binding, so the state
component passes through unchanged. -/
def fooCall (s : GlobalState) (gf : GenFun) (args : List Val) :
    GlobalState × JsPromise :=
  (s, foo gf args)

/-- Which promise library constructed a promise object. -/
inductive PromiseLib where
  | globalStd : PromiseLib
  | qlib : PromiseLib
deriving DecidableEq

/-- A promise object together with the library that constructed it. -/
structure TaggedPromise where
  lib : PromiseLib
  beh : JsPromise

/-- The Q promise produced by `Q.async(generator).apply(this, ...)` at
line 170 of the embedded Q-based source: an object of the Q library. -/
def qAsyncTagged (gf : GenFun) (args : List Val) : TaggedPromise :=
  ⟨PromiseLib.qlib, qAsyncRun gf args⟩

/-- The promise the Q-based wrapper returns (lines 171-174 of the
embedded source): a `new Promise(...)` constructed from the global
Promise binding on every call, forwarding the settlement of the
underlying Q promise through `promise.then(resolve, reject)`. -/
def qFooTagged (gf : GenFun) (args : List Val) : TaggedPromise :=
  ⟨PromiseLib.globalStd, newPromiseThen (qAsyncTagged gf args).beh⟩

/-- C1: for every plain (non-awaitable) value `v` — including undefined,
null, numbers, strings, objects, and arrays, all covered by `Val` — a
foo-wrapped generator that yields `v` once and returns the yielded result
produces a promise that fulfills with a value deeply equal to `v` (deep
equality is structural equality of `Val`), for any argument list. -/
theorem foo_plain_value_roundtrip (v : Val) (args : List Val) :
    (foo (fun _ => genYieldOnce (Yielded.plain v)) args).outcome = Outcome.ok v :=
  rfl

/-- C2: for every value `v`, a foo-wrapped generator that yields an
already-fulfilled promise of `v` fulfills with `v`; one that yields the
next-tick promise `belay v` fulfills with `v`; and one that yields a
promise fulfilling with `v` only after an arbitrary positive number of
event-loop turns also fulfills with `v`. -/
theorem foo_promise_value_roundtrip (v : Val) (d : Nat) (args : List Val) :
    (foo (fun _ => genYieldOnce (Yielded.promise (promiseResolve v))) args).outcome
        = Outcome.ok v
    ∧ (foo (fun _ => genYieldOnce (Yielded.promise (belay v))) args).outcome
        = Outcome.ok v
    ∧ (foo (fun _ => genYieldOnce (Yielded.promise ⟨d + 1, Outcome.ok v⟩)) args).outcome
        = Outcome.ok v :=
  ⟨rfl, rfl, rfl⟩

/-- C3: for every error `e`, when a foo-wrapped generator yields a
promise that rejects with `e` inside a local try/catch, the overall run
is exactly the catch block applied to `e` itself (the same continuation a
synchronously thrown `e` at that point would reach), so the catch
observes `e` unaltered; in particular a catch block that suppresses the
error (here, returning the caught value) makes the wrapper promise
fulfill rather than reject. -/
theorem foo_catch_rejection_local (e : Val) (c : Val → Gen) :
    foo (fun _ => genYieldInTryCatch (Yielded.promise (belayError e)) c) []
        = runGenWith fooYieldHandler (c e) 1
    ∧ (foo (fun _ => genYieldInTryCatch (Yielded.promise (belayError e))
          (fun caught => Gen.ret caught)) []).outcome = Outcome.ok e :=
  ⟨rfl, rfl⟩

/-- C4: every error not caught locally becomes the rejection reason of
the wrapper promise, identity-preserving: a generator that yields a
promise rejecting with `e` (after any number of turns) and re-raises it
rejects with the very same `e`; a generator that throws `e` directly
rejects with `e`; and the Q-based wrapper forwards the same `e` through
its rejection channel without wrapping or altering it. -/
theorem foo_uncaught_error_rejects_identity (e : Val) (d : Nat) (args : List Val) :
    (foo (fun _ => genYieldOnce (Yielded.promise ⟨d, Outcome.err e⟩)) args).outcome
        = Outcome.err e
    ∧ (foo (fun _ => Gen.genThrow e) args).outcome = Outcome.err e
    ∧ (qFoo (fun _ => genYieldOnce (Yielded.promise ⟨d, Outcome.err e⟩)) args).outcome
        = Outcome.err e :=
  ⟨rfl, rfl, rfl⟩

/-- C5: the Bluebird-based wrapper (src/foo.js) and the Q-based wrapper
(embedded in src/test/testFoo.js) are observationally equivalent: for
every generator function and every argument list, the two returned
promises settle with the same outcome — the same fulfillment value or
the same rejection reason. -/
theorem foo_bluebird_q_equivalent (gf : GenFun) (args : List Val) :
    (foo gf args).outcome = (qFoo gf args).outcome :=
  rfl

/-- C6: for every generator function and argument list the wrapper call
yields a promise with exactly one settlement outcome; and even for a body
that raises before its first suspension, the error is routed into the
rejection of the returned promise — in both the Bluebird-based and the
Q-based variant — rather than surfacing through any synchronous channel
(in the model, `foo` and `qFoo` are total functions into `JsPromise`, so
the promise is constructed unconditionally at call time). -/
theorem foo_returns_settles_once (gf : GenFun) (args : List Val) (e : Val) :
    (∃! o : Outcome, (foo gf args).outcome = o)
    ∧ (foo (fun _ => Gen.genThrow e) args).outcome = Outcome.err e
    ∧ (qFoo (fun _ => Gen.genThrow e) args).outcome = Outcome.err e :=
  ⟨⟨(foo gf args).outcome, rfl, fun _ hy => hy.symm⟩, rfl, rfl⟩

/-- C7: for every misuse input (a value that is not a generator
function), the exported adapter performs no validation of its own: its
result is exactly the result of the host coroutine layer on that input —
the adapter is the host operation re-exported unchanged — and that
failure surfaces through the rejection channel, not as a distinct
adapter-generated error. -/
theorem foo_misuse_host_layer (v : Val) (args : List Val) :
    fooExport (WrapInput.notAFunction v) args
        = hostCoroutineLayer (WrapInput.notAFunction v) args
    ∧ (∃ e : Val, (fooExport (WrapInput.notAFunction v) args).outcome = Outcome.err e) :=
  ⟨rfl, ⟨Val.error "generatorFunction must be a function", rfl⟩⟩

/-- C8: a foo-wrapped generator that yields the promise returned by
another foo-wrapped generator is driven through the same uniform promise
branch as any other awaitable: for the nested wrapped generator
`a(value)` that yields null once and returns its argument, an outer
wrapper yielding `a(v)` fulfills with `v` for every `v`; in particular
yielding `a(42)` fulfills with `42`. -/
theorem foo_nested_wrapper (v : Val) (args : List Val) :
    (foo (fun _ => genYieldOnce (Yielded.promise (foo aGen [v]))) args).outcome
        = Outcome.ok v
    ∧ (foo (fun _ => genYieldOnce (Yielded.promise (foo aGen [Val.num 42]))) []).outcome
        = Outcome.ok (Val.num 42) :=
  ⟨rfl, rfl⟩

/-- C9: a wrapper invocation mutates no global state — for every starting
global state the call returns it unchanged — while the module-load
installation (which the IIFE runs exactly once, at load) is what replaces
the global Promise binding with Bluebird, enables long stack traces, and
registers the plain-value yield handler. -/
theorem foo_no_per_call_global_mutation (s : GlobalState) (gf : GenFun) (args : List Val) :
    (fooCall s gf args).fst = s
    ∧ (moduleLoad s).promiseImpl = PromiseImpl.bluebird
    ∧ (moduleLoad s).longStackTracesEnabled = true
    ∧ (moduleLoad s).yieldHandlers = s.yieldHandlers ++ [fooYieldHandler] :=
  ⟨rfl, rfl, rfl, rfl⟩

/-- C10: every call of the Q-based wrapper returns a promise constructed
by the global Promise constructor — never an object of the Q library —
and that fresh promise settles with exactly the outcome of the underlying
coroutine-driven Q promise. -/
theorem qfoo_fresh_global_promise (gf : GenFun) (args : List Val) :
    (qFooTagged gf args).lib = PromiseLib.globalStd
    ∧ (qFooTagged gf args).lib ≠ PromiseLib.qlib
    ∧ (qFooTagged gf args).beh.outcome = (qAsyncTagged gf args).beh.outcome :=
  ⟨rfl, fun h => PromiseLib.noConfusion h, rfl⟩
